import Mathlib

/-!
Shallow embedding of the ChatApp repository's session lifecycle and
conversation synchronization core.

The repository contains two parallel application implementations:
an AuthService-based App (modelled in namespace `ChatApp.App1`, together
with its `AuthService`) and an apiService-based App (modelled in namespace
`ChatApp.App2`, together with `ChatApp.ApiService` from
src/services/api.ts).  Network effects are modelled by passing each
function the response its fetch would receive; JavaScript-specific
semantics (falsy strings, comparisons against undefined) are embedded
explicitly where the source relies on them.
-/

namespace ChatApp

/-- Sender role of a message: the source types sender_type as the union
of the string literals user and bot. -/
inductive Sender where
  | user
  | bot
deriving DecidableEq, Repr

/-- True exactly on the bot sender. -/
def Sender.isBot : Sender → Bool
  | .bot => true
  | .user => false

/-- True exactly on the user sender. -/
def Sender.isUser : Sender → Bool
  | .user => true
  | .bot => false

/-- The User record carried inside a session (interface User in the source). -/
structure UserRec where
  id : String
  email : String
  displayName : Option String
deriving DecidableEq, Repr

/-- A message row as returned by the remote store (interface Message). -/
structure Message where
  id : String
  chat_id : String
  content : String
  sender_type : Sender
  user_id : String
  created_at : String
deriving DecidableEq, Repr

/-- A chat row as returned by the remote store (interface Chat). -/
structure Chat where
  id : String
  title : String
  user_id : String
  created_at : String
  updated_at : String
deriving DecidableEq, Repr

/-- Count of bot-role messages in a list. -/
def botCount (l : List Message) : Nat :=
  (l.filter (fun m => m.sender_type.isBot)).length

/-- Count of user-role messages in a list. -/
def userCount (l : List Message) : Nat :=
  (l.filter (fun m => m.sender_type.isUser)).length

/-- Contents of the bot-role messages in a list, in order. -/
def botContents (l : List Message) : List String :=
  (l.filter (fun m => m.sender_type.isBot)).map Message.content

namespace AuthService

/-- The result of JSON.parse applied to the persisted nhost_session record,
as far as getStoredSession inspects it.  expiresAt = none models a parsed
value on which the member access session.expiresAt yields undefined
(field missing, or a primitive JSON value). -/
structure ParsedSession where
  accessToken : String
  refreshToken : String
  user : UserRec
  expiresAt : Option Int
deriving DecidableEq, Repr

/-- State of the localStorage slot under the key nhost_session. -/
inductive StoredSlot where
  | absent
  | unparsable
  | record (s : ParsedSession)
deriving DecidableEq, Repr

/-- JavaScript evaluation of session.expiresAt <= now: when expiresAt is
undefined the comparison is a NaN comparison and evaluates to false. -/
def jsLeNow : Option Int → Int → Bool
  | none, _ => false
  | some e, n => decide (e ≤ n)

/-- AuthService.getStoredSession: read the slot, return null when absent;
JSON.parse failure (or a parsed null, whose member access throws) is caught
and returns null; otherwise return null when session.expiresAt <= Date.now()
evaluates to true, else return the parsed session. -/
def getStoredSession : StoredSlot → Int → Option ParsedSession
  | .absent, _ => none
  | .unparsable, _ => none
  | .record s, now => if jsLeNow s.expiresAt now then none else some s

/-- AuthService.signOut: remove the persisted record. -/
def signOut (_slot : StoredSlot) : StoredSlot :=
  .absent

/-- Body of a successful token-endpoint response (response.ok with
data.session present). -/
structure RefreshData where
  accessToken : String
  refreshToken : String
  user : UserRec
  accessTokenExpiresIn : Int
deriving DecidableEq, Repr

/-- Observable outcome of one AuthService.refreshSession call: the returned
session (or null), the localStorage slot afterwards, and how many network
requests to the token endpoint the call performed. -/
structure RefreshOutcome where
  result : Option ParsedSession
  slot : StoredSlot
  fetches : Nat
deriving DecidableEq, Repr

/-- AuthService.refreshSession: unconditionally POST to the token endpoint
(exactly one fetch; the class keeps no in-flight guard state).  On
response.ok with data.session, build the session with
expiresAt = Date.now() + accessTokenExpiresIn * 1000, persist it wholesale
and return it; otherwise (including a thrown network error) return null. -/
def refreshSession (resp : Option RefreshData) (slot : StoredSlot) (now : Int) :
    RefreshOutcome :=
  match resp with
  | some d =>
      let s : ParsedSession :=
        { accessToken := d.accessToken
          refreshToken := d.refreshToken
          user := d.user
          expiresAt := some (now + d.accessTokenExpiresIn * 1000) }
      { result := some s, slot := .record s, fetches := 1 }
  | none => { result := none, slot := slot, fetches := 1 }

/-- Two refreshSession calls where the second is issued while the first is
still outstanding.  The source function consults no shared in-flight state
before fetching (its first action is the fetch itself), so the interleaved
execution simply runs the body twice; resp1 and resp2 are the two network
results, and the total network traffic is the sum of both calls.  The
second component of the triple is the second call's outcome; the third is
the total number of token-endpoint requests issued. -/
def overlappingRefreshes (resp1 resp2 : Option RefreshData) (slot : StoredSlot)
    (now : Int) : RefreshOutcome × RefreshOutcome × Nat :=
  let o1 := refreshSession resp1 slot now
  let o2 := refreshSession resp2 o1.slot now
  (o1, o2, o1.fetches + o2.fetches)

end AuthService

namespace App1

open AuthService

/-- The needsRefresh test in initializeAuth: timeUntilExpiry < 300000 with
timeUntilExpiry = storedSession.expiresAt - Date.now().  When expiresAt is
undefined the subtraction is NaN and the comparison evaluates to false. -/
def needsRefresh : Option Int → Int → Bool
  | none, _ => false
  | some e, now => decide (e - now < 300000)

/-- Observable outcome of initializeAuth: the session and user placed into
React state, the localStorage slot afterwards, and how many refresh
attempts (token-endpoint calls) were made. -/
structure InitOutcome where
  session : Option ParsedSession
  user : Option UserRec
  slot : StoredSlot
  refreshAttempts : Nat
deriving DecidableEq, Repr

/-- The initializeAuth effect of the AuthService-based App: read the stored
session; if present, refresh exactly when timeUntilExpiry < 300000 (five
minutes), adopting the refreshed session on success and signing out on
failure; otherwise adopt the stored session unchanged. -/
def initAuth (slot : StoredSlot) (now : Int) (tokenResp : Option RefreshData) :
    InitOutcome :=
  match getStoredSession slot now with
  | none => { session := none, user := none, slot := slot, refreshAttempts := 0 }
  | some stored =>
      if needsRefresh stored.expiresAt now then
        let o := refreshSession tokenResp slot now
        match o.result with
        | some s =>
            { session := some s, user := some s.user, slot := o.slot
              refreshAttempts := 1 }
        | none =>
            { session := none, user := none, slot := signOut slot
              refreshAttempts := 1 }
      else
        { session := some stored, user := some stored.user, slot := slot
          refreshAttempts := 0 }

end App1

/-- Server-assigned metadata of a successfully inserted message row
(the remaining columns echoed back by insert_messages_one). -/
structure InsertAck where
  id : String
  user_id : String
  created_at : String
deriving DecidableEq, Repr

/-- Outcome of one CREATE_MESSAGE mutation: either it resolves with the
inserted row (the row is persisted remotely) or the promise rejects and
nothing is persisted. -/
inductive InsertOutcome where
  | ok (ack : InsertAck)
  | threw
deriving DecidableEq, Repr

/-- Build the message row created by a CREATE_MESSAGE mutation from the
request fields and the server-assigned metadata. -/
def mkMessage (chatId content : String) (sender : Sender) (ack : InsertAck) :
    Message :=
  { id := ack.id, chat_id := chatId, content := content, sender_type := sender
    user_id := ack.user_id, created_at := ack.created_at }

/-- Status line of an HTTP response to the webhook fetch; ok is response.ok
(status in the 2xx range). -/
structure HttpResponse where
  ok : Bool
  status : Nat
deriving DecidableEq, Repr

/-- Outcome of webhookResponse.json(): either the body fails to parse as
JSON (the promise rejects) or it parses, with responseField the value of
the response property when it is a string (none models a missing or null
field). -/
inductive WebhookBody where
  | malformed
  | parsed (responseField : Option String)
deriving DecidableEq, Repr

/-- Outcome of the webhook fetch itself: a response (with body), or a
rejected promise (network failure / timeout). -/
inductive WebhookResult where
  | response (r : HttpResponse) (body : WebhookBody)
  | networkError
deriving DecidableEq, Repr

/-- JavaScript evaluation of x || d for a string-or-undefined x: the empty
string is falsy, so it also selects the default. -/
def jsOrDefault : Option String → String → String
  | some s, d => if s = "" then d else s
  | none, d => d

namespace App1

/-- Substitute reply used when botResponseData.response is falsy. -/
def substituteReply : String := "Sorry, I could not process your message."

/-- Fallback bot content persisted when the webhook status is not ok. -/
def unavailableFallback : String :=
  "Sorry, the chatbot service is currently unavailable. Please try again later."

/-- Bot content persisted by the catch handler of handleSendMessage. -/
def errorFallback : String := "Sorry, I encountered an error. Please try again."

/-- Environment of one handleSendMessage run: the outcome each network
interaction would have if reached.  The three insert fields are the
CREATE_MESSAGE mutations in, respectively, the webhookResponse.ok branch,
the non-ok branch, and the catch handler. -/
structure SendEnv where
  userInsert : InsertOutcome
  webhook : WebhookResult
  botInsert : InsertOutcome
  fallbackInsert : InsertOutcome
  catchInsert : InsertOutcome
deriving DecidableEq, Repr

/-- Observable outcome of one handleSendMessage run: the message rows
persisted remotely and the rows appended to the local messages state,
each in order. -/
structure SendResult where
  persisted : List Message
  appended : List Message
deriving DecidableEq, Repr

/-- The catch handler of handleSendMessage: persist and append the
errorFallback bot message inside its own try/catch; a failure there is
logged and swallowed. -/
def catchPath (env : SendEnv) (chatId : String) (acc : SendResult) : SendResult :=
  match env.catchInsert with
  | .ok ack =>
      let m := mkMessage chatId errorFallback .bot ack
      { persisted := acc.persisted ++ [m], appended := acc.appended ++ [m] }
  | .threw => acc

/-- handleSendMessage of the AuthService-based App: persist the user
message and append it; call the webhook; on response.ok parse the body and
persist botResponseData.response || substituteReply as the bot message; on
a non-ok status persist the unavailableFallback bot message; any thrown
step (user insert, webhook fetch, body parse, bot insert, fallback insert)
lands in the catch handler, which persists the errorFallback bot
message. -/
def handleSendMessage (env : SendEnv) (chatId content : String) : SendResult :=
  match env.userInsert with
  | .threw => catchPath env chatId { persisted := [], appended := [] }
  | .ok uack =>
      let um := mkMessage chatId content .user uack
      let acc : SendResult := { persisted := [um], appended := [um] }
      match env.webhook with
      | .networkError => catchPath env chatId acc
      | .response r body =>
          if r.ok then
            match body with
            | .malformed => catchPath env chatId acc
            | .parsed f =>
                let botContent := jsOrDefault f substituteReply
                match env.botInsert with
                | .ok back =>
                    let bm := mkMessage chatId botContent .bot back
                    { persisted := acc.persisted ++ [bm]
                      appended := acc.appended ++ [bm] }
                | .threw => catchPath env chatId acc
          else
            match env.fallbackInsert with
            | .ok fack =>
                let fm := mkMessage chatId unavailableFallback .bot fack
                { persisted := acc.persisted ++ [fm]
                  appended := acc.appended ++ [fm] }
            | .threw => catchPath env chatId acc

/-- The slice of App state that loadMessages reads and writes. -/
structure PollState where
  selectedChatId : Option String
  messages : List Message
deriving DecidableEq, Repr

/-- Completion of one loadMessages(requestChatId) call: when the
GET_MESSAGES query resolves with data.messages, setMessages replaces the
local message list with it unconditionally — the chat id the request
targeted is not compared against the current selectedChatId, and neither
is consulted at all.  A failed request (resp = none) is caught, logged and
changes nothing. -/
def applyLoadMessages (st : PollState) (requestChatId : String)
    (resp : Option (List Message)) : PollState :=
  match resp with
  | some msgs => { st with messages := msgs }
  | none => st

/-- Full React state of the AuthService-based App component. -/
structure AppState where
  user : Option UserRec
  session : Option AuthService.ParsedSession
  chats : List Chat
  selectedChatId : Option String
  messages : List Message
  loading : Bool
  sidebarOpen : Bool
  slot : AuthService.StoredSlot
deriving DecidableEq, Repr

/-- handleSignOut of the AuthService-based App: clear the persisted
session, then null the user and session and empty the chats, messages and
selection. -/
def handleSignOut (st : AppState) : AppState :=
  { st with
    slot := AuthService.signOut st.slot
    user := none
    session := none
    chats := []
    messages := []
    selectedChatId := none }

end App1

namespace ApiService

/-- The body of the GraphQL endpoint response to one request, as far as
graphqlRequest inspects it: a result.errors array (only the first error
message is used) or result.data of the payload type. -/
inductive GqlResult (α : Type) where
  | errors (msg : String)
  | ok (d : α)
deriving Repr

/-- Bookkeeping of one graphqlRequest call: the returned data or the thrown
error message, how many network requests were issued, and how many
session-refresh attempts were made. -/
structure GqlCall (α : Type) where
  result : Except String α
  requests : Nat
  refreshAttempts : Nat
deriving Repr

/-- ApiService.graphqlRequest: issue exactly one fetch; when the body
carries result.errors, throw an Error with the first error message,
otherwise return result.data.  Nothing in the body distinguishes
authentication errors from application errors, attempts a session refresh,
or retries the request. -/
def graphqlRequest {α : Type} (res : GqlResult α) : GqlCall α :=
  match res with
  | .errors m => { result := .error m, requests := 1, refreshAttempts := 0 }
  | .ok d => { result := .ok d, requests := 1, refreshAttempts := 0 }

/-- ApiService.getChats: one graphqlRequest returning data.chats. -/
def getChats (res : GqlResult (List Chat)) : GqlCall (List Chat) :=
  graphqlRequest res

/-- ApiService.createChat: one graphqlRequest returning
data.insert_chats_one. -/
def createChat (res : GqlResult Chat) : GqlCall Chat :=
  graphqlRequest res

/-- ApiService.getMessages: one graphqlRequest returning data.messages. -/
def getMessages (res : GqlResult (List Message)) : GqlCall (List Message) :=
  graphqlRequest res

/-- ApiService.sendMessage: one graphqlRequest whose mutation hardcodes
sender_type user; it returns data.insert_messages_one.  The ack carries
the server-assigned columns of the inserted row. -/
def sendMessage (res : GqlResult InsertAck) (chatId content : String) :
    GqlCall Message :=
  match graphqlRequest res with
  | { result := .ok ack, requests := rq, refreshAttempts := ra } =>
      { result := .ok (mkMessage chatId content .user ack)
        requests := rq, refreshAttempts := ra }
  | { result := .error m, requests := rq, refreshAttempts := ra } =>
      { result := .error m, requests := rq, refreshAttempts := ra }

/-- ApiService.updateChatTimestamp: one graphqlRequest for the UpdateChat
mutation; only the id is returned and the caller ignores it. -/
def updateChatTimestamp (res : GqlResult String) : GqlCall String :=
  graphqlRequest res

/-- ApiService.sendToChatbot: await the webhook fetch and return void.  The
response object is never read: neither its status nor its body influences
the result, so every received HTTP response resolves to ok ().  Only a
rejected fetch (network failure) propagates as an error. -/
def sendToChatbot (w : WebhookResult) : Except Unit Unit :=
  match w with
  | .networkError => .error ()
  | .response _ _ => .ok ()

end ApiService

namespace App2

open ApiService

/-- Environment of one handleSendMessage run of the apiService-based App:
the outcome each network interaction would have if reached. -/
structure SendEnv where
  sendMessage : GqlResult InsertAck
  touch : GqlResult String
  webhook : WebhookResult
  chats : GqlResult (List Chat)
deriving Repr

/-- Observable outcome of one handleSendMessage run of the apiService-based
App: rows persisted remotely, rows appended to the local messages state,
whether control reached the sendToChatbot call, whether the catch handler
logged an error, and whether loadChats was reached. -/
structure SendResult where
  persisted : List Message
  appended : List Message
  webhookCalled : Bool
  errorLogged : Bool
  chatsReloaded : Bool
deriving DecidableEq, Repr

/-- handleSendMessage of the apiService-based App: inside one try block,
persist the user message and append it, then updateChatTimestamp, then
sendToChatbot, then loadChats (which catches its own failures).  Any
thrown step lands in the single catch handler, which only logs — so a
failure of updateChatTimestamp prevents the sendToChatbot call, and no
branch ever persists a bot message. -/
def handleSendMessage (env : SendEnv) (chatId content : String) : SendResult :=
  match (ApiService.sendMessage env.sendMessage chatId content).result with
  | .error _ =>
      { persisted := [], appended := [], webhookCalled := false
        errorLogged := true, chatsReloaded := false }
  | .ok um =>
      match (updateChatTimestamp env.touch).result with
      | .error _ =>
          { persisted := [um], appended := [um], webhookCalled := false
            errorLogged := true, chatsReloaded := false }
      | .ok _ =>
          match sendToChatbot env.webhook with
          | .error _ =>
              { persisted := [um], appended := [um], webhookCalled := true
                errorLogged := true, chatsReloaded := false }
          | .ok _ =>
              { persisted := [um], appended := [um], webhookCalled := true
                errorLogged := false, chatsReloaded := true }

/-- Full React state of the apiService-based App component.  nhostSession
records whether the nhost SDK currently holds a session. -/
structure AppState where
  user : Option UserRec
  isAuthenticated : Bool
  chats : List Chat
  currentChat : Option Chat
  messages : List Message
  sidebarOpen : Bool
  nhostSession : Bool
deriving DecidableEq, Repr

/-- handleSignOut of the apiService-based App: sign out of the nhost SDK,
null the user, drop the authenticated flag, and empty the chats, current
chat, messages and sidebar. -/
def handleSignOut (st : AppState) : AppState :=
  { st with
    nhostSession := false
    user := none
    isAuthenticated := false
    chats := []
    currentChat := none
    messages := []
    sidebarOpen := false }

end App2

namespace Fixtures

/-- A concrete user record. -/
def u0 : UserRec :=
  { id := "user-1", email := "u@example.com", displayName := none }

/-- Server metadata for a persisted user message. -/
def ackU : InsertAck := { id := "m1", user_id := "user-1", created_at := "t1" }

/-- Server metadata for a persisted bot message. -/
def ackB : InsertAck := { id := "m2", user_id := "user-1", created_at := "t2" }

/-- Server metadata for a persisted fallback message. -/
def ackF : InsertAck := { id := "m3", user_id := "user-1", created_at := "t3" }

/-- Server metadata for a persisted catch-handler message. -/
def ackC : InsertAck := { id := "m4", user_id := "user-1", created_at := "t4" }

/-- A successful token-endpoint response body. -/
def refreshData1 : AuthService.RefreshData :=
  { accessToken := "at2", refreshToken := "rt2", user := u0
    accessTokenExpiresIn := 900 }

/-- A persisted record that parses but carries no expiresAt field. -/
def noExpirySession : AuthService.ParsedSession :=
  { accessToken := "at", refreshToken := "rt", user := u0, expiresAt := none }

/-- A well-formed session expiring at epoch instant 200000. -/
def shortSession : AuthService.ParsedSession :=
  { accessToken := "at", refreshToken := "rt", user := u0
    expiresAt := some 200000 }

/-- A message belonging to chat-A. -/
def msgA : Message :=
  { id := "a1", chat_id := "chat-A", content := "from A", sender_type := .bot
    user_id := "user-1", created_at := "t0" }

/-- A message belonging to chat-B. -/
def msgB : Message :=
  { id := "b1", chat_id := "chat-B", content := "from B", sender_type := .user
    user_id := "user-1", created_at := "t0" }

/-- An apiService-pipeline environment in which every step succeeds and the
webhook replies 200 with a usable response string. -/
def env2all : App2.SendEnv :=
  { sendMessage := .ok ackU, touch := .ok "chat-1"
    webhook := .response ⟨true, 200⟩ (.parsed (some "hi there"))
    chats := .ok [] }

/-- An AuthService-pipeline environment in which the webhook returns 503 and
both the fallback insert and the catch-handler insert fail. -/
def env1doubleFail : App1.SendEnv :=
  { userInsert := .ok ackU
    webhook := .response ⟨false, 503⟩ (.parsed none)
    botInsert := .ok ackB, fallbackInsert := .threw, catchInsert := .threw }

/-- An AuthService-pipeline environment in which the webhook replies 200
with a parsed body that lacks the response field; all inserts succeed. -/
def env1missingField : App1.SendEnv :=
  { userInsert := .ok ackU
    webhook := .response ⟨true, 200⟩ (.parsed none)
    botInsert := .ok ackB, fallbackInsert := .ok ackF, catchInsert := .ok ackC }

/-- An apiService-pipeline environment in which the user message persists
but the UpdateChat mutation reports an error. -/
def env2touchFail : App2.SendEnv :=
  { sendMessage := .ok ackU, touch := .errors "permission denied"
    webhook := .response ⟨true, 200⟩ (.parsed (some "hi there"))
    chats := .ok [] }

end Fixtures

/-- Claim C2: the code does not serialize overlapping refresh attempts.  A
refreshSession call keeps no in-flight guard, so when a second call is
issued while the first is outstanding, two token-endpoint requests are
performed, and the second call obtains its own result (here a failure)
instead of reusing the first call's successfully refreshed session. -/
theorem C2_overlapping_refresh_duplicates_request :
    (AuthService.overlappingRefreshes (some Fixtures.refreshData1) none
        .absent 0).2.2 = 2 ∧
    (AuthService.overlappingRefreshes (some Fixtures.refreshData1) none
        .absent 0).2.1.result = none ∧
    (AuthService.overlappingRefreshes (some Fixtures.refreshData1) none
        .absent 0).1.result.isSome = true :=
  ⟨rfl, rfl, rfl⟩

/-- Claim C3: the code does not discard stale poll responses.  The merge
performed on completion of loadMessages ignores both the chat id the
request targeted and the current active chat id (last conjunct), so a
response for chat-A arriving after the active chat switched to chat-B
replaces the local message list with chat-A's messages. -/
theorem C3_stale_response_applied :
    (App1.applyLoadMessages ⟨some "chat-B", [Fixtures.msgB]⟩ "chat-A"
        (some [Fixtures.msgA])).messages = [Fixtures.msgA] ∧
    (App1.applyLoadMessages ⟨some "chat-B", [Fixtures.msgB]⟩ "chat-A"
        (some [Fixtures.msgA])).selectedChatId = some "chat-B" ∧
    Fixtures.msgA.chat_id = "chat-A" ∧
    (∀ st tag1 tag2 resp,
        App1.applyLoadMessages st tag1 resp = App1.applyLoadMessages st tag2 resp) :=
  ⟨rfl, rfl, rfl, fun _ _ _ _ => rfl⟩

/-- Claim C5 (amended): getStoredSession returns a parsed record s exactly
when the slot holds s and the JavaScript comparison s.expiresAt <= now is
not true — equivalently, every present numeric expiresAt is strictly in
the future.  Since undefined <= now evaluates to false, a record that
parses but lacks a numeric expiresAt is surfaced rather than treated as
absent; absence and parse failure still yield null, and the function is
total, so it never throws. -/
theorem C5_getStoredSession_valid_iff (slot : AuthService.StoredSlot) (now : Int)
    (s : AuthService.ParsedSession) :
    AuthService.getStoredSession slot now = some s ↔
      (slot = .record s ∧ ∀ e, s.expiresAt = some e → now < e) := by
  constructor
  · intro hret
    cases slot with
    | absent => simp [AuthService.getStoredSession] at hret
    | unparsable => simp [AuthService.getStoredSession] at hret
    | record t =>
        by_cases hle : AuthService.jsLeNow t.expiresAt now = true
        · simp [AuthService.getStoredSession, hle] at hret
        · simp [AuthService.getStoredSession, hle] at hret
          subst hret
          refine ⟨rfl, fun e he => ?_⟩
          rw [he] at hle
          simp [AuthService.jsLeNow] at hle
          exact hle
  · rintro ⟨rfl, hall⟩
    simp only [AuthService.getStoredSession]
    cases h : s.expiresAt with
    | none => simp [AuthService.jsLeNow]
    | some e =>
        have hgt := hall e h
        simp [AuthService.jsLeNow, not_le.mpr hgt]

/-- Claim C5 witness: a record with expiresAt 200000 read at time 0 is
returned, via the amended theorem. -/
theorem C5_getStoredSession_valid_iff_witness :
    AuthService.getStoredSession (.record Fixtures.shortSession) 0 =
      some Fixtures.shortSession :=
  (C5_getStoredSession_valid_iff (.record Fixtures.shortSession) 0
      Fixtures.shortSession).mpr
    ⟨rfl, fun e he => by
      cases he
      decide⟩

/-- Claim C5 counterexample: a persisted record that parses but carries no
expiresAt field is returned by getStoredSession even though it does not
have an expiresAt strictly greater than the current time, because
undefined <= now is false in JavaScript. -/
theorem C5_counterexample_no_expiry_surfaced :
    AuthService.getStoredSession (.record Fixtures.noExpirySession) 1000 =
      some Fixtures.noExpirySession ∧
    Fixtures.noExpirySession.expiresAt = none :=
  ⟨rfl, rfl⟩

/-- Claim C7: for a stored valid session (numeric expiresAt e with now < e,
so getStoredSession surfaces it), initializeAuth attempts a refresh exactly
when e - now < 300000 (five minutes), never makes a second attempt, never
refreshes when five minutes or more remain, and on refresh failure signs
the user out: the slot is cleared and no session or user is adopted. -/
theorem C7_refresh_exactly_when_under_five_minutes
    (s : AuthService.ParsedSession) (now e : Int)
    (tokenResp : Option AuthService.RefreshData)
    (hexp : s.expiresAt = some e) (hvalid : now < e) :
    ((App1.initAuth (.record s) now tokenResp).refreshAttempts = 1 ↔
        e - now < 300000) ∧
    (App1.initAuth (.record s) now tokenResp).refreshAttempts ≤ 1 ∧
    (300000 ≤ e - now →
        (App1.initAuth (.record s) now tokenResp).refreshAttempts = 0) ∧
    (e - now < 300000 → tokenResp = none →
        App1.initAuth (.record s) now tokenResp =
          { session := none, user := none, slot := .absent
            refreshAttempts := 1 }) := by
  have hget : AuthService.getStoredSession (.record s) now = some s := by
    simp [AuthService.getStoredSession, AuthService.jsLeNow, hexp,
      not_le.mpr hvalid]
  have hneed : App1.needsRefresh s.expiresAt now = decide (e - now < 300000) := by
    rw [hexp]
    rfl
  by_cases hw : e - now < 300000
  · simp only [App1.initAuth, hget, hneed, hw, decide_eq_true_eq, if_pos]
    cases tokenResp with
    | none =>
        simp [AuthService.refreshSession, AuthService.signOut, hw]
    | some d =>
        simp only [AuthService.refreshSession]
        refine ⟨by simp [hw], by simp, fun hge => absurd hw (not_lt.mpr hge),
          fun _ hcontra => by cases hcontra⟩
  · simp only [App1.initAuth, hget, hneed]
    rw [if_neg (by simpa using hw)]
    refine ⟨by simp [hw], by simp, fun _ => rfl, fun hlt => absurd hlt hw⟩

/-- Claim C7 witness: a session expiring at 200000 read at time 0 is inside
the five-minute window; with a failed token response the user is signed
out after exactly one refresh attempt. -/
theorem C7_refresh_exactly_when_under_five_minutes_witness :
    Fixtures.shortSession.expiresAt = some 200000 ∧
    (0 : Int) < 200000 ∧
    (((App1.initAuth (.record Fixtures.shortSession) 0 none).refreshAttempts
          = 1 ↔ (200000 : Int) - 0 < 300000) ∧
      (App1.initAuth (.record Fixtures.shortSession) 0 none).refreshAttempts
          ≤ 1 ∧
      (300000 ≤ (200000 : Int) - 0 →
          (App1.initAuth (.record Fixtures.shortSession) 0 none).refreshAttempts
            = 0) ∧
      ((200000 : Int) - 0 < 300000 → none = (none : Option AuthService.RefreshData) →
          App1.initAuth (.record Fixtures.shortSession) 0 none =
            { session := none, user := none, slot := .absent
              refreshAttempts := 1 })) :=
  ⟨rfl, by decide,
    C7_refresh_exactly_when_under_five_minutes Fixtures.shortSession 0 200000
      none rfl (by decide)⟩

/-- Claim C10: after handleSignOut completes, in both App implementations
the local conversation state is reset to the anonymous initial state: the
chat list and message list are empty, no chat is selected, the user is
null, and the session (the persisted slot, respectively the nhost SDK
session) is gone. -/
theorem C10_signout_resets_all_state :
    (∀ st : App1.AppState,
        (App1.handleSignOut st).user = none ∧
        (App1.handleSignOut st).session = none ∧
        (App1.handleSignOut st).chats = [] ∧
        (App1.handleSignOut st).messages = [] ∧
        (App1.handleSignOut st).selectedChatId = none ∧
        (App1.handleSignOut st).slot = .absent) ∧
    (∀ st : App2.AppState,
        (App2.handleSignOut st).user = none ∧
        (App2.handleSignOut st).isAuthenticated = false ∧
        (App2.handleSignOut st).chats = [] ∧
        (App2.handleSignOut st).messages = [] ∧
        (App2.handleSignOut st).currentChat = none ∧
        (App2.handleSignOut st).nhostSession = false) :=
  ⟨fun _ => ⟨rfl, rfl, rfl, rfl, rfl, rfl⟩,
    fun _ => ⟨rfl, rfl, rfl, rfl, rfl, rfl⟩⟩

/-- Claim C1 (amended): in the AuthService-based App, a handleSendMessage
run that persists the user message and in which every reached bot-message
insert succeeds persists exactly one user-role and exactly one bot-role
message, appends exactly what it persists, and a webhook response with a
non-success status yields exactly one fallback bot message with the
service-currently-unavailable wording. -/
theorem C1_send_persists_exactly_one_bot (wh : WebhookResult)
    (uack back fack cack : InsertAck) (chatId content : String) :
    userCount (App1.handleSendMessage
        ⟨.ok uack, wh, .ok back, .ok fack, .ok cack⟩ chatId content).persisted
      = 1 ∧
    botCount (App1.handleSendMessage
        ⟨.ok uack, wh, .ok back, .ok fack, .ok cack⟩ chatId content).persisted
      = 1 ∧
    (App1.handleSendMessage
        ⟨.ok uack, wh, .ok back, .ok fack, .ok cack⟩ chatId content).appended =
      (App1.handleSendMessage
        ⟨.ok uack, wh, .ok back, .ok fack, .ok cack⟩ chatId content).persisted ∧
    (∀ r body, wh = .response r body → r.ok = false →
        botContents (App1.handleSendMessage
            ⟨.ok uack, wh, .ok back, .ok fack, .ok cack⟩ chatId
            content).persisted = [App1.unavailableFallback]) := by
  cases wh with
  | networkError => exact ⟨rfl, rfl, rfl, fun r body h => nomatch h⟩
  | response r body =>
      obtain ⟨rok, status⟩ := r
      cases rok with
      | true =>
          cases body with
          | malformed =>
              refine ⟨rfl, rfl, rfl, fun r2 body2 heq hok => ?_⟩
              cases heq
              simp at hok
          | parsed f =>
              refine ⟨rfl, rfl, rfl, fun r2 body2 heq hok => ?_⟩
              cases heq
              simp at hok
      | false =>
          exact ⟨rfl, rfl, rfl, fun r2 body2 heq hok => by cases heq; rfl⟩

/-- Claim C1 witness: with a 503 webhook response and all inserts
succeeding, the run persists one user message and one bot message whose
content is the unavailable-service fallback. -/
theorem C1_send_persists_exactly_one_bot_witness :
    userCount (App1.handleSendMessage
        ⟨.ok Fixtures.ackU, .response ⟨false, 503⟩ (.parsed none),
          .ok Fixtures.ackB, .ok Fixtures.ackF, .ok Fixtures.ackC⟩
        "chat-1" "hello").persisted = 1 ∧
    botCount (App1.handleSendMessage
        ⟨.ok Fixtures.ackU, .response ⟨false, 503⟩ (.parsed none),
          .ok Fixtures.ackB, .ok Fixtures.ackF, .ok Fixtures.ackC⟩
        "chat-1" "hello").persisted = 1 ∧
    botContents (App1.handleSendMessage
        ⟨.ok Fixtures.ackU, .response ⟨false, 503⟩ (.parsed none),
          .ok Fixtures.ackB, .ok Fixtures.ackF, .ok Fixtures.ackC⟩
        "chat-1" "hello").persisted = [App1.unavailableFallback] :=
  have h := C1_send_persists_exactly_one_bot
    (.response ⟨false, 503⟩ (.parsed none)) Fixtures.ackU Fixtures.ackB
    Fixtures.ackF Fixtures.ackC "chat-1" "hello"
  ⟨h.1, h.2.1, h.2.2.2 ⟨false, 503⟩ (.parsed none) rfl rfl⟩

/-- Claim C1 counterexample: the claim is false over the send pipelines of
the repository as stated.  The apiService-based handleSendMessage, even
when every step succeeds, persists and appends the user message but zero
bot-role messages; and the AuthService-based handleSendMessage persists
zero bot messages when both the fallback insert and the catch-handler
insert fail. -/
theorem C1_counterexample_zero_bot_messages :
    userCount (App2.handleSendMessage Fixtures.env2all "chat-1"
        "hello").persisted = 1 ∧
    botCount (App2.handleSendMessage Fixtures.env2all "chat-1"
        "hello").persisted = 0 ∧
    botCount (App2.handleSendMessage Fixtures.env2all "chat-1"
        "hello").appended = 0 ∧
    userCount (App1.handleSendMessage Fixtures.env1doubleFail "chat-1"
        "hello").persisted = 1 ∧
    botCount (App1.handleSendMessage Fixtures.env1doubleFail "chat-1"
        "hello").persisted = 0 :=
  ⟨rfl, rfl, rfl, rfl, rfl⟩

/-- Claim C4 (amended): in the AuthService-based App, a webhook response
with a success status whose parsed body lacks a usable response string
(missing field or empty string) is not routed to the
service-currently-unavailable fallback: the success branch persists the
substitute reply as the single bot message instead; a body that fails to
parse as JSON lands in the catch handler, which persists the
encountered-an-error message. -/
theorem C4_unusable_reply_goes_to_substitute
    (uack back fack cack : InsertAck) (chatId content : String)
    (r : HttpResponse) (hok : r.ok = true) :
    (∀ f, (f = none ∨ f = some "") →
        botContents (App1.handleSendMessage
            ⟨.ok uack, .response r (.parsed f), .ok back, .ok fack, .ok cack⟩
            chatId content).persisted = [App1.substituteReply]) ∧
    botContents (App1.handleSendMessage
        ⟨.ok uack, .response r .malformed, .ok back, .ok fack, .ok cack⟩
        chatId content).persisted = [App1.errorFallback] := by
  obtain ⟨rok, status⟩ := r
  cases rok with
  | false => simp at hok
  | true =>
      refine ⟨?_, rfl⟩
      rintro f (rfl | rfl)
      · rfl
      · rfl

/-- Claim C4 witness: a 200 webhook response whose parsed body has no
response field persists the substitute reply, and a malformed 200 body
persists the encountered-an-error message. -/
theorem C4_unusable_reply_goes_to_substitute_witness :
    botContents (App1.handleSendMessage
        ⟨.ok Fixtures.ackU, .response ⟨true, 200⟩ (.parsed none),
          .ok Fixtures.ackB, .ok Fixtures.ackF, .ok Fixtures.ackC⟩
        "chat-1" "hello").persisted = [App1.substituteReply] ∧
    botContents (App1.handleSendMessage
        ⟨.ok Fixtures.ackU, .response ⟨true, 200⟩ .malformed,
          .ok Fixtures.ackB, .ok Fixtures.ackF, .ok Fixtures.ackC⟩
        "chat-1" "hello").persisted = [App1.errorFallback] :=
  have h := C4_unusable_reply_goes_to_substitute Fixtures.ackU Fixtures.ackB
    Fixtures.ackF Fixtures.ackC "chat-1" "hello" ⟨true, 200⟩ rfl
  ⟨h.1 none (Or.inl rfl), h.2⟩

/-- Claim C4 counterexample: with a success status and a parsed body whose
response field is missing, the pipeline persists the substitute reply,
whose wording differs from the service-currently-unavailable fallback the
claim requires. -/
theorem C4_counterexample_substitute_not_unavailable :
    botContents (App1.handleSendMessage Fixtures.env1missingField "chat-1"
        "hello").persisted = [App1.substituteReply] ∧
    decide (App1.substituteReply = App1.unavailableFallback) = false :=
  ⟨rfl, rfl⟩

/-- Claim C6 (amended): every Remote Store Client operation issues exactly
one network request and zero session-refresh attempts for every response,
and any GraphQL-reported error — an authentication failure and an
application-level error alike — is thrown as an Error carrying the first
error message, with no refresh and no retry; the five operations are all
one graphqlRequest call. -/
theorem C6_single_request_no_refresh_retry :
    (∀ (α : Type) (res : ApiService.GqlResult α),
        (ApiService.graphqlRequest res).requests = 1 ∧
        (ApiService.graphqlRequest res).refreshAttempts = 0 ∧
        ∀ m, res = .errors m → (ApiService.graphqlRequest res).result = .error m) ∧
    (∀ rc, ApiService.getChats rc = ApiService.graphqlRequest rc) ∧
    (∀ rcc, ApiService.createChat rcc = ApiService.graphqlRequest rcc) ∧
    (∀ rm, ApiService.getMessages rm = ApiService.graphqlRequest rm) ∧
    (∀ rt, ApiService.updateChatTimestamp rt = ApiService.graphqlRequest rt) ∧
    (∀ (ra : ApiService.GqlResult InsertAck) (chatId content : String),
        (ApiService.sendMessage ra chatId content).requests = 1 ∧
        (ApiService.sendMessage ra chatId content).refreshAttempts = 0 ∧
        ∀ m, ra = .errors m →
          (ApiService.sendMessage ra chatId content).result = .error m) := by
  refine ⟨fun α res => ?_, fun _ => rfl, fun _ => rfl, fun _ => rfl,
    fun _ => rfl, fun ra chatId content => ?_⟩
  · cases res with
    | errors m0 => exact ⟨rfl, rfl, fun m h => by cases h; rfl⟩
    | ok d => exact ⟨rfl, rfl, fun m h => nomatch h⟩
  · cases ra with
    | errors m0 => exact ⟨rfl, rfl, fun m h => by cases h; rfl⟩
    | ok d => exact ⟨rfl, rfl, fun m h => nomatch h⟩

/-- Claim C6 witness: a getChats call answered by an authentication error
issues one request, makes zero refresh attempts and throws the error
message. -/
theorem C6_single_request_no_refresh_retry_witness :
    (ApiService.getChats (.errors "Could not verify JWT: JWTExpired")).requests
      = 1 ∧
    (ApiService.getChats
        (.errors "Could not verify JWT: JWTExpired")).refreshAttempts = 0 ∧
    (ApiService.getChats (.errors "Could not verify JWT: JWTExpired")).result =
      .error "Could not verify JWT: JWTExpired" :=
  have hop := C6_single_request_no_refresh_retry.2.1
    (ApiService.GqlResult.errors "Could not verify JWT: JWTExpired")
  have h := C6_single_request_no_refresh_retry.1 (List Chat)
    (.errors "Could not verify JWT: JWTExpired")
  ⟨hop ▸ h.1, hop ▸ h.2.1, hop ▸ h.2.2 "Could not verify JWT: JWTExpired" rfl⟩

/-- Claim C6 counterexample: the claim is false as stated — a listChats
call that fails on a missing or expired token is surfaced as a thrown
Error after exactly one request, with no session refresh attempted and no
retry issued. -/
theorem C6_counterexample_auth_error_not_retried :
    (ApiService.getChats (.errors "unauthorized: token expired")).requests
      = 1 ∧
    (ApiService.getChats
        (.errors "unauthorized: token expired")).refreshAttempts = 0 ∧
    (ApiService.getChats (.errors "unauthorized: token expired")).result =
      .error "unauthorized: token expired" :=
  ⟨rfl, rfl, rfl⟩

/-- Claim C8 (amended): in the apiService-based App, when the user message
persists and updateChatTimestamp then throws, the single catch handler
logs the failure but the pipeline is aborted: the webhook is never
invoked, the chat list is not reloaded, and only the user message was
persisted and appended. -/
theorem C8_touch_failure_aborts_pipeline (env : App2.SendEnv)
    (chatId content : String) (ack : InsertAck) (m : String)
    (hsend : env.sendMessage = .ok ack) (htouch : env.touch = .errors m) :
    App2.handleSendMessage env chatId content =
      { persisted := [mkMessage chatId content .user ack]
        appended := [mkMessage chatId content .user ack]
        webhookCalled := false, errorLogged := true, chatsReloaded := false } := by
  simp [App2.handleSendMessage, ApiService.sendMessage,
    ApiService.updateChatTimestamp, ApiService.graphqlRequest, hsend, htouch]

/-- Claim C8 witness: a concrete environment where the user message
persists and the UpdateChat mutation reports an error yields the aborted
pipeline outcome. -/
theorem C8_touch_failure_aborts_pipeline_witness :
    Fixtures.env2touchFail.sendMessage = .ok Fixtures.ackU ∧
    Fixtures.env2touchFail.touch = .errors "permission denied" ∧
    App2.handleSendMessage Fixtures.env2touchFail "chat-1" "hello" =
      { persisted := [mkMessage "chat-1" "hello" .user Fixtures.ackU]
        appended := [mkMessage "chat-1" "hello" .user Fixtures.ackU]
        webhookCalled := false, errorLogged := true, chatsReloaded := false } :=
  ⟨rfl, rfl,
    C8_touch_failure_aborts_pipeline Fixtures.env2touchFail "chat-1" "hello"
      Fixtures.ackU "permission denied" rfl rfl⟩

/-- Claim C8 counterexample: the claim is false as stated — after a
touchChat failure the remaining pipeline steps do not run: the webhook is
not invoked (webhookCalled is false) even though the failure was logged
and the user message persisted. -/
theorem C8_counterexample_webhook_not_reached :
    (App2.handleSendMessage Fixtures.env2touchFail "chat-1"
        "hello").webhookCalled = false ∧
    (App2.handleSendMessage Fixtures.env2touchFail "chat-1"
        "hello").errorLogged = true ∧
    userCount (App2.handleSendMessage Fixtures.env2touchFail "chat-1"
        "hello").persisted = 1 :=
  ⟨rfl, rfl, rfl⟩

/-- Claim C9: sendToChatbot resolves to void for every received HTTP
response, whatever its status or body, and the apiService-based
handleSendMessage never persists or appends a bot-role message in any
environment — bot replies can only enter local state through a later
poll merge. -/
theorem C9_sendToChatbot_never_persists_bot :
    (∀ (r : HttpResponse) (body : WebhookBody),
        ApiService.sendToChatbot (.response r body) = .ok ()) ∧
    (∀ (env : App2.SendEnv) (chatId content : String),
        botCount (App2.handleSendMessage env chatId content).persisted = 0 ∧
        botCount (App2.handleSendMessage env chatId content).appended = 0) := by
  refine ⟨fun r body => rfl, fun env chatId content => ?_⟩
  obtain ⟨sm, tc, wh, ch⟩ := env
  cases sm <;> cases tc <;> cases wh <;>
    simp [App2.handleSendMessage, ApiService.sendMessage,
      ApiService.updateChatTimestamp, ApiService.graphqlRequest,
      ApiService.sendToChatbot, botCount, mkMessage, Sender.isBot,
      List.filter]

end ChatApp
